import Mathlib

/-!
# Particle lifecycle of the procedural scene (`01_procedural/src/scene.cpp`)

A shallow embedding of `scene_structure` and of its per-frame functions
`initialize`, `display_bubble`, `display_billboard` and `display_frame`.

Modelling conventions.
* `float` values are rationals: every property below is about the order of time values
  and about which values are passed where, not about rounding.
* `std::vector` is `List`; `push_back` appends at the tail; the `int` loop bound
  `N = size()` is the length of the list.
* Calls into the rendering backend (`draw`, `draw_wireframe`, `gl*`) are recorded, in
  issue order, in the field `calls` of the scene.
* `timer.update()` belongs to the host framework: the values it produces for a frame
  (`t` and `event` of each timer) are the input of that frame.
* The particle module (`particle_bubble`, `particle_billboard`,
  `particle_system_structure`) is not part of `scene.cpp`; what the scene uses of it is
  modelled from the specification and marked as such.
-/

namespace Scene

/-- Three floats (`cgp::vec3`). -/
structure vec3 where
  x : ℚ
  y : ℚ
  z : ℚ
deriving DecidableEq, Repr

/-- Modelled from the spec: the record `particle_bubble` of the particle module, "spawn
time" `t0` (the name used at `scene.cpp:93`), immutable trajectory constants `p0`, and
the `radius` and `color` read by `display_bubble`. -/
structure particle_bubble where
  t0 : ℚ
  p0 : vec3
  radius : ℚ
  color : vec3
deriving DecidableEq, Repr

/-- Modelled from the spec: the record `particle_billboard` of the particle module,
spawn time `t0` and immutable trajectory constants `p0`. -/
structure particle_billboard where
  t0 : ℚ
  p0 : vec3
deriving DecidableEq, Repr

/-- The particle store: `particle_system.bubbles` and `particle_system.billboards`,
two vectors, oldest element first. -/
structure particle_system_structure where
  bubbles : List particle_bubble
  billboards : List particle_billboard
deriving DecidableEq, Repr

/-- Modelled from the spec: what the specification leaves open about the particle
module, taken as parameters. `max_lifetime` is the "fixed maximum lifetime constant",
the `default_*` fields are the "default trajectory constants" given to a new particle,
and `path_bubble` / `path_billboard` are the closed-form trajectories, functions of the
trajectory constants and of the age. -/
structure particle_module where
  max_lifetime : ℚ
  default_p0_bubble : vec3
  default_radius : ℚ
  default_color : vec3
  default_p0_billboard : vec3
  path_bubble : vec3 → ℚ → vec3
  path_billboard : vec3 → ℚ → vec3

/-- Modelled from the spec: the constructor `particle_bubble(creation_time)`, "a new
Bubble with `spawn_time = current_time` and default trajectory constants". -/
def particle_bubble.create (M : particle_module) (creation_time : ℚ) : particle_bubble :=
  { t0 := creation_time, p0 := M.default_p0_bubble,
    radius := M.default_radius, color := M.default_color }

/-- Modelled from the spec: the constructor `particle_billboard(creation_time)`, same as
for bubbles. -/
def particle_billboard.create (M : particle_module) (creation_time : ℚ) :
    particle_billboard :=
  { t0 := creation_time, p0 := M.default_p0_billboard }

/-- Modelled from the spec: `particle_bubble::evaluate_position(absolute_time)`, a "pure
function of `current_time - spawn_time`" with no side effect. -/
def particle_bubble.evaluate_position (M : particle_module) (p : particle_bubble)
    (absolute_time : ℚ) : vec3 :=
  M.path_bubble p.p0 (absolute_time - p.t0)

/-- Modelled from the spec: `particle_billboard::evaluate_position(absolute_time)`, a
"pure function of `current_time - spawn_time`" with no side effect. -/
def particle_billboard.evaluate_position (M : particle_module) (p : particle_billboard)
    (absolute_time : ℚ) : vec3 :=
  M.path_billboard p.p0 (absolute_time - p.t0)

/-- Modelled from the spec: `particle_system_structure::remove_old_particles(t)`, which
"removes every particle whose age exceeds a fixed maximum lifetime constant; the two
sequences are filtered independently; ordering of survivors preserved". -/
def remove_old_particles (M : particle_module) (t : ℚ) (ps : particle_system_structure) :
    particle_system_structure :=
  { bubbles := ps.bubbles.filter (fun p => !decide (t - p.t0 > M.max_lifetime)),
    billboards := ps.billboards.filter (fun p => !decide (t - p.t0 > M.max_lifetime)) }

/-- The fields of a `cgp::timer_event_periodic` that the scene reads or writes. -/
structure timer_event_periodic where
  t : ℚ
  event : Bool
  event_period : ℚ
deriving DecidableEq, Repr

/-- The checkboxes of `gui_parameters`. -/
structure gui_parameters where
  display_frame : Bool
  display_wireframe : Bool
  display_transparent_billboard : Bool
  display_sphere : Bool
  display_billboard : Bool
deriving DecidableEq, Repr

/-- The part of a `mesh_drawable` that the frame functions write before drawing. -/
structure mesh_drawable where
  translation : vec3
  scaling : ℚ
  color : vec3
deriving DecidableEq, Repr

/-- The drawables owned by the scene. -/
inductive shape
  | global_frame
  | sphere
  | billboard
  | cooking_pot
  | spoon
  | liquid_surface
deriving DecidableEq, Repr

/-- One call into the rendering backend, with the state of the drawable it is given. -/
inductive render_call
  | draw (which : shape) (d : mesh_drawable)
  | draw_wireframe (which : shape) (d : mesh_drawable)
  | glEnable_BLEND
  | glDisable_BLEND
  | glDepthMask (flag : Bool)
  | glBlendFunc_SRC_ALPHA_ONE_MINUS_SRC_ALPHA
deriving DecidableEq, Repr

/-- The members of `scene_structure` that the frame functions touch. `light` and
`uniform_time` are the two entries of `environment` written by `display_frame`; `calls`
is the log of the calls issued so far. -/
structure scene_structure where
  gui : gui_parameters
  timer : timer_event_periodic
  timer_bubble : timer_event_periodic
  timer_billboard : timer_event_periodic
  particle_system : particle_system_structure
  global_frame : mesh_drawable
  sphere : mesh_drawable
  billboard : mesh_drawable
  cooking_pot : mesh_drawable
  spoon : mesh_drawable
  liquid_surface : mesh_drawable
  light : vec3
  uniform_time : ℚ
  calls : List render_call

/-- What the host framework supplies to one frame: the camera position and, for each
timer, the `t` and `event` that its `update()` leaves behind. -/
structure frame_input where
  camera_position : vec3
  t : ℚ
  t_bubble : ℚ
  event_bubble : Bool
  t_billboard : ℚ
  event_billboard : Bool
deriving DecidableEq, Repr

/-- Appends one call to the log. -/
def issue (c : render_call) (s : scene_structure) : scene_structure :=
  { s with calls := s.calls ++ [c] }

/-! ## `initialize` and `display_gui`: the spawn periods -/

/-- Lower and upper bound of the slider "Bubble spawn time" (`scene.cpp:158`). -/
def slider_bubble_spawn_time : ℚ × ℚ := (0.05, 2.0)

/-- Lower and upper bound of the slider "Smoke spawn time" (`scene.cpp:159`). -/
def slider_smoke_spawn_time : ℚ × ℚ := (0.01, 0.5)

/-- The widest range named by the specification for a spawn period, `[0.01, 2.0]`. -/
def period_valid_range : ℚ × ℚ := (0.01, 2.0)

/-- The function `scene_structure::initialize` (`scene.cpp:6-46`): the colours and
placements it assigns and the two spawn periods (`scene.cpp:44-45`). Loading meshes,
textures and shaders and setting up the camera is the framework's work. -/
def initialize_scene (s : scene_structure) : scene_structure :=
  { s with
    sphere := { s.sphere with color := ⟨0.5, 0.8, 1.0⟩ },
    cooking_pot := { translation := ⟨-0.1, -0.3, 0.0⟩, scaling := 0.43,
                     color := ⟨0.9, 0.8, 0.6⟩ },
    spoon := { translation := ⟨-0.1, -0.3, 0⟩, scaling := 0.43, color := ⟨0.9, 0.8, 0.6⟩ },
    liquid_surface := { s.liquid_surface with color := ⟨0.5, 0.6, 0.8⟩ },
    timer_bubble := { s.timer_bubble with event_period := 0.2 },
    timer_billboard := { s.timer_billboard with event_period := 0.05 } }

/-! ## `display_bubble` and `display_billboard` -/

/-- Body of the loop of `display_bubble` for the bubble `particle` (`scene.cpp:54-63`). -/
def display_bubble_body (M : particle_module) (s : scene_structure)
    (particle : particle_bubble) : scene_structure :=
  let p := particle.evaluate_position M s.timer_bubble.t
  let s := { s with sphere := { s.sphere with translation := p } }
  let s := { s with sphere := { s.sphere with scaling := particle.radius } }
  let s := { s with sphere := { s.sphere with color := particle.color } }
  issue (render_call.draw shape.sphere s.sphere) s

/-- The function `display_bubble` (`scene.cpp:48-65`): the loop `k = 0 .. N-1` over
`particle_system.bubbles`. -/
def display_bubble (M : particle_module) (s : scene_structure) : scene_structure :=
  s.particle_system.bubbles.foldl (display_bubble_body M) s

/-- Body of the loop of `display_billboard` for the billboard `particle`
(`scene.cpp:83-102`). The position is evaluated at `timer_bubble.t`. -/
def display_billboard_body (M : particle_module) (s : scene_structure)
    (particle : particle_billboard) : scene_structure :=
  let p := particle.evaluate_position M s.timer_bubble.t
  let s := { s with billboard := { s.billboard with translation := p } }
  let s := issue (render_call.draw shape.billboard s.billboard) s
  if s.gui.display_wireframe then
    issue (render_call.draw_wireframe shape.billboard s.billboard) s
  else s

/-- The function `display_billboard` (`scene.cpp:67-106`). -/
def display_billboard (M : particle_module) (s : scene_structure) : scene_structure :=
  let s :=
    if s.gui.display_transparent_billboard then
      issue render_call.glBlendFunc_SRC_ALPHA_ONE_MINUS_SRC_ALPHA
        (issue (render_call.glDepthMask false) (issue render_call.glEnable_BLEND s))
    else issue render_call.glDisable_BLEND s
  let s := s.particle_system.billboards.foldl (display_billboard_body M) s
  issue (render_call.glDepthMask true) s

/-! ## `display_frame` -/

/-- Start of `display_frame` up to the timers (`scene.cpp:112-132`): light, static
elements, the three `update()` calls and the `time` uniform. -/
def frame_prologue (inp : frame_input) (s : scene_structure) : scene_structure :=
  let s := { s with light := inp.camera_position }
  let s := if s.gui.display_frame then issue (render_call.draw shape.global_frame s.global_frame) s
           else s
  let s := issue (render_call.draw shape.spoon s.spoon) s
  let s := issue (render_call.draw shape.cooking_pot s.cooking_pot) s
  let s := issue (render_call.draw shape.liquid_surface s.liquid_surface) s
  let s := if s.gui.display_wireframe then
             issue (render_call.draw_wireframe shape.liquid_surface s.liquid_surface) s
           else s
  let s := { s with timer_bubble :=
               { s.timer_bubble with t := inp.t_bubble, event := inp.event_bubble } }
  let s := { s with timer_billboard :=
               { s.timer_billboard with t := inp.t_billboard, event := inp.event_billboard } }
  let s := { s with timer := { s.timer with t := inp.t } }
  { s with uniform_time := s.timer.t }

/-- The spawn step of `display_frame` (`scene.cpp:135-138`). -/
def spawn_step (M : particle_module) (s : scene_structure) : scene_structure :=
  let s :=
    if s.timer_bubble.event then
      { s with particle_system :=
          { s.particle_system with
            bubbles := s.particle_system.bubbles ++
              [particle_bubble.create M s.timer_bubble.t] } }
    else s
  if s.timer_billboard.event then
    { s with particle_system :=
        { s.particle_system with
          billboards := s.particle_system.billboards ++
            [particle_billboard.create M s.timer_billboard.t] } }
  else s

/-- The eviction step of `display_frame` (`scene.cpp:140`): `evict` stands for the member
function `remove_old_particles`, called with `timer_bubble.t`. -/
def eviction_step
    (evict : ℚ → particle_system_structure → particle_system_structure)
    (s : scene_structure) : scene_structure :=
  { s with particle_system := evict s.timer_bubble.t s.particle_system }

/-- The rendering step of `display_frame` (`scene.cpp:143-148`). -/
def render_step (M : particle_module) (s : scene_structure) : scene_structure :=
  let s := if s.gui.display_sphere then display_bubble M s else s
  if s.gui.display_billboard then display_billboard M s else s

/-- The function `display_frame` (`scene.cpp:110-150`), with the eviction function as a
parameter. -/
def display_frame_with (M : particle_module)
    (evict : ℚ → particle_system_structure → particle_system_structure)
    (inp : frame_input) (s : scene_structure) : scene_structure :=
  render_step M (eviction_step evict (spawn_step M (frame_prologue inp s)))

/-- The function `display_frame` with the eviction function of the particle module. -/
def display_frame (M : particle_module) (inp : frame_input) (s : scene_structure) :
    scene_structure :=
  display_frame_with M (remove_old_particles M) inp s

/-- A run of the scene: one `display_frame` per input, in order. -/
def run_frames (M : particle_module)
    (evict : ℚ → particle_system_structure → particle_system_structure)
    (s : scene_structure) (inputs : List frame_input) : scene_structure :=
  inputs.foldl (fun st inp => display_frame_with M evict inp st) s

/-- The bubbles of `s` paired with the time that `display_bubble` passes to
`evaluate_position` (`scene.cpp:57`): one entry per loop iteration. -/
def bubble_evaluations (s : scene_structure) : List (particle_bubble × ℚ) :=
  s.particle_system.bubbles.map (fun p => (p, s.timer_bubble.t))

/-- The billboards of `s` paired with the time that `display_billboard` passes to
`evaluate_position` (`scene.cpp:84`): one entry per loop iteration. -/
def billboard_evaluations (s : scene_structure) : List (particle_billboard × ℚ) :=
  s.particle_system.billboards.map (fun p => (p, s.timer_bubble.t))

/-- The translation carried by a call that draws the billboard quad, `none` for every
other call. -/
def billboard_translation : render_call → Option vec3
  | render_call.draw shape.billboard d => some d.translation
  | _ => none

/-- The bubble sequence is sorted by spawn time and no bubble is younger than the bubble
timer says. -/
def bubbles_sorted (s : scene_structure) : Prop :=
  (∀ p ∈ s.particle_system.bubbles, p.t0 ≤ s.timer_bubble.t) ∧
    s.particle_system.bubbles.Pairwise (fun x y => x.t0 ≤ y.t0)

/-- The billboard sequence is sorted by spawn time and no billboard is younger than the
billboard timer says. -/
def billboards_sorted (s : scene_structure) : Prop :=
  (∀ p ∈ s.particle_system.billboards, p.t0 ≤ s.timer_billboard.t) ∧
    s.particle_system.billboards.Pairwise (fun x y => x.t0 ≤ y.t0)

/-! ## Concrete data used in the examples -/

/-- The origin. -/
def vec3.zero : vec3 := ⟨0, 0, 0⟩

/-- A particle module with a lifetime of 3 time units and straight upward paths. -/
def demo_module : particle_module :=
  { max_lifetime := 3
    default_p0_bubble := vec3.zero
    default_radius := 1
    default_color := ⟨1, 1, 1⟩
    default_p0_billboard := vec3.zero
    path_bubble := fun p0 age => ⟨p0.x, p0.y + age, p0.z⟩
    path_billboard := fun p0 age => ⟨p0.x, p0.y + age, p0.z⟩ }

/-- A drawable at the origin. -/
def demo_drawable : mesh_drawable := ⟨vec3.zero, 1, ⟨1, 1, 1⟩⟩

/-- A scene with an empty store, all checkboxes ticked and the timers at zero. -/
def demo_scene : scene_structure :=
  { gui := ⟨true, true, true, true, true⟩
    timer := ⟨0, false, 1⟩
    timer_bubble := ⟨0, false, 0.2⟩
    timer_billboard := ⟨0, false, 0.05⟩
    particle_system := ⟨[], []⟩
    global_frame := demo_drawable
    sphere := demo_drawable
    billboard := demo_drawable
    cooking_pot := demo_drawable
    spoon := demo_drawable
    liquid_surface := demo_drawable
    light := vec3.zero
    uniform_time := 0
    calls := [] }

/-- Three frames on a common clock: spawns of both kinds at times 0 and 1, then a frame
at time 4 without spawn. -/
def demo_inputs : List frame_input :=
  [ ⟨vec3.zero, 0, 0, true, 0, true⟩,
    ⟨vec3.zero, 1, 1, true, 1, true⟩,
    ⟨vec3.zero, 4, 4, false, 4, false⟩ ]

/-- Two frames in which the billboard timer runs one time unit ahead of the bubble
timer; a billboard is spawned in the first one. -/
def skewed_inputs : List frame_input :=
  [ ⟨vec3.zero, 1, 1, false, 2, true⟩,
    ⟨vec3.zero, 3/2, 3/2, false, 5/2, false⟩ ]

/-! ## Auxiliary facts about the frame functions -/

theorem foldl_keeps {α σ β : Type} (f : σ → α → σ) (g : σ → β)
    (h : ∀ s a, g (f s a) = g s) (l : List α) (s : σ) : g (l.foldl f s) = g s := by
  induction l generalizing s with
  | nil => rfl
  | cons a l ih => rw [List.foldl_cons, ih, h]

theorem display_bubble_body_store (M : particle_module) (s : scene_structure)
    (p : particle_bubble) :
    (display_bubble_body M s p).particle_system = s.particle_system := rfl

theorem display_billboard_body_store (M : particle_module) (s : scene_structure)
    (p : particle_billboard) :
    (display_billboard_body M s p).particle_system = s.particle_system := by
  unfold display_billboard_body issue
  dsimp only
  split <;> rfl

theorem display_billboard_body_timer (M : particle_module) (s : scene_structure)
    (p : particle_billboard) :
    (display_billboard_body M s p).timer_bubble = s.timer_bubble := by
  unfold display_billboard_body issue
  dsimp only
  split <;> rfl

theorem display_bubble_store (M : particle_module) (s : scene_structure) :
    (display_bubble M s).particle_system = s.particle_system :=
  foldl_keeps (display_bubble_body M) scene_structure.particle_system
    (display_bubble_body_store M) _ s

theorem display_bubble_timer (M : particle_module) (s : scene_structure) :
    (display_bubble M s).timer_bubble = s.timer_bubble :=
  foldl_keeps (display_bubble_body M) scene_structure.timer_bubble (fun _ _ => rfl) _ s

theorem display_billboard_store (M : particle_module) (s : scene_structure) :
    (display_billboard M s).particle_system = s.particle_system := by
  unfold display_billboard
  dsimp only [issue]
  rw [foldl_keeps (display_billboard_body M) scene_structure.particle_system
    (display_billboard_body_store M)]
  split <;> rfl

theorem display_billboard_timer (M : particle_module) (s : scene_structure) :
    (display_billboard M s).timer_bubble = s.timer_bubble := by
  unfold display_billboard
  dsimp only [issue]
  rw [foldl_keeps (display_billboard_body M) scene_structure.timer_bubble
    (display_billboard_body_timer M)]
  split <;> rfl

theorem render_step_store (M : particle_module) (s : scene_structure) :
    (render_step M s).particle_system = s.particle_system := by
  unfold render_step
  dsimp only
  split_ifs <;> simp [display_billboard_store, display_bubble_store]

theorem render_step_timer (M : particle_module) (s : scene_structure) :
    (render_step M s).timer_bubble = s.timer_bubble := by
  unfold render_step
  dsimp only
  split_ifs <;> simp [display_billboard_timer, display_bubble_timer]

theorem frame_prologue_store (inp : frame_input) (s : scene_structure) :
    (frame_prologue inp s).particle_system = s.particle_system := by
  unfold frame_prologue issue
  dsimp only
  split_ifs <;> rfl

theorem frame_prologue_timer_bubble (inp : frame_input) (s : scene_structure) :
    (frame_prologue inp s).timer_bubble =
      { s.timer_bubble with t := inp.t_bubble, event := inp.event_bubble } := by
  unfold frame_prologue issue
  dsimp only
  split_ifs <;> rfl

theorem frame_prologue_timer_billboard (inp : frame_input) (s : scene_structure) :
    (frame_prologue inp s).timer_billboard =
      { s.timer_billboard with t := inp.t_billboard, event := inp.event_billboard } := by
  unfold frame_prologue issue
  dsimp only
  split_ifs <;> rfl

theorem spawn_step_timer_bubble (M : particle_module) (s : scene_structure) :
    (spawn_step M s).timer_bubble = s.timer_bubble := by
  unfold spawn_step
  dsimp only
  split_ifs <;> rfl

theorem spawn_step_store (M : particle_module) (s : scene_structure) :
    (spawn_step M s).particle_system =
      { bubbles :=
          if s.timer_bubble.event then
            s.particle_system.bubbles ++ [particle_bubble.create M s.timer_bubble.t]
          else s.particle_system.bubbles,
        billboards :=
          if s.timer_billboard.event then
            s.particle_system.billboards ++ [particle_billboard.create M s.timer_billboard.t]
          else s.particle_system.billboards } := by
  unfold spawn_step
  dsimp only
  split_ifs <;> rfl

theorem spawn_step_bubbles (M : particle_module) (s : scene_structure) :
    (spawn_step M s).particle_system.bubbles =
      if s.timer_bubble.event then
        s.particle_system.bubbles ++ [particle_bubble.create M s.timer_bubble.t]
      else s.particle_system.bubbles := by
  unfold spawn_step
  dsimp only
  split_ifs <;> rfl

theorem spawn_step_billboards (M : particle_module) (s : scene_structure) :
    (spawn_step M s).particle_system.billboards =
      if s.timer_billboard.event then
        s.particle_system.billboards ++ [particle_billboard.create M s.timer_billboard.t]
      else s.particle_system.billboards := by
  unfold spawn_step
  dsimp only
  split_ifs <;> rfl

theorem display_bubble_calls_aux (M : particle_module) (l : List particle_bubble)
    (s : scene_structure) :
    (l.foldl (display_bubble_body M) s).calls =
      s.calls ++ l.map (fun p => render_call.draw shape.sphere
        { translation := p.evaluate_position M s.timer_bubble.t,
          scaling := p.radius, color := p.color }) := by
  induction l generalizing s with
  | nil => simp
  | cons a l ih =>
    rw [List.foldl_cons, ih]
    simp [display_bubble_body, issue]

theorem remove_old_particles_bubbles_age (M : particle_module) (t : ℚ)
    (ps : particle_system_structure) :
    ∀ p ∈ (remove_old_particles M t ps).bubbles, t - p.t0 ≤ M.max_lifetime := by
  intro p hp
  simp only [remove_old_particles, List.mem_filter, Bool.not_eq_true', decide_eq_false_iff_not,
    not_lt] at hp
  exact hp.2

theorem remove_old_particles_billboards_age (M : particle_module) (t : ℚ)
    (ps : particle_system_structure) :
    ∀ p ∈ (remove_old_particles M t ps).billboards, t - p.t0 ≤ M.max_lifetime := by
  intro p hp
  simp only [remove_old_particles, List.mem_filter, Bool.not_eq_true', decide_eq_false_iff_not,
    not_lt] at hp
  exact hp.2

theorem remove_old_particles_sublist (M : particle_module) (t : ℚ)
    (ps : particle_system_structure) :
    ((remove_old_particles M t ps).bubbles).Sublist ps.bubbles ∧
      ((remove_old_particles M t ps).billboards).Sublist ps.billboards :=
  ⟨List.filter_sublist _, List.filter_sublist _⟩

/-! ## Runs of several frames -/

theorem spawn_step_timer_billboard (M : particle_module) (s : scene_structure) :
    (spawn_step M s).timer_billboard = s.timer_billboard := by
  unfold spawn_step
  dsimp only
  split_ifs <;> rfl

theorem display_billboard_body_timer_billboard (M : particle_module) (s : scene_structure)
    (p : particle_billboard) :
    (display_billboard_body M s p).timer_billboard = s.timer_billboard := by
  unfold display_billboard_body issue
  dsimp only
  split <;> rfl

theorem render_step_timer_billboard (M : particle_module) (s : scene_structure) :
    (render_step M s).timer_billboard = s.timer_billboard := by
  have hb : ∀ u : scene_structure, (display_bubble M u).timer_billboard = u.timer_billboard :=
    fun u => foldl_keeps (display_bubble_body M) scene_structure.timer_billboard
      (fun _ _ => rfl) _ u
  have hq : ∀ u : scene_structure,
      (display_billboard M u).timer_billboard = u.timer_billboard := by
    intro u
    unfold display_billboard
    dsimp only [issue]
    rw [foldl_keeps (display_billboard_body M) scene_structure.timer_billboard
      (display_billboard_body_timer_billboard M)]
    split <;> rfl
  unfold render_step
  dsimp only
  split_ifs <;> simp [hb, hq]

theorem display_frame_with_store (M : particle_module)
    (evict : ℚ → particle_system_structure → particle_system_structure)
    (inp : frame_input) (s : scene_structure) :
    (display_frame_with M evict inp s).particle_system =
      evict inp.t_bubble
        { bubbles :=
            if inp.event_bubble then
              s.particle_system.bubbles ++ [particle_bubble.create M inp.t_bubble]
            else s.particle_system.bubbles,
          billboards :=
            if inp.event_billboard then
              s.particle_system.billboards ++ [particle_billboard.create M inp.t_billboard]
            else s.particle_system.billboards } := by
  unfold display_frame_with
  rw [render_step_store]
  simp only [eviction_step, spawn_step_timer_bubble, frame_prologue_timer_bubble,
    spawn_step_store, frame_prologue_timer_billboard, frame_prologue_store]

theorem display_frame_with_timer_bubble (M : particle_module)
    (evict : ℚ → particle_system_structure → particle_system_structure)
    (inp : frame_input) (s : scene_structure) :
    (display_frame_with M evict inp s).timer_bubble.t = inp.t_bubble := by
  unfold display_frame_with
  rw [render_step_timer]
  simp only [eviction_step, spawn_step_timer_bubble, frame_prologue_timer_bubble]

theorem display_frame_with_timer_billboard (M : particle_module)
    (evict : ℚ → particle_system_structure → particle_system_structure)
    (inp : frame_input) (s : scene_structure) :
    (display_frame_with M evict inp s).timer_billboard.t = inp.t_billboard := by
  unfold display_frame_with
  rw [render_step_timer_billboard]
  simp only [eviction_step, spawn_step_timer_billboard, frame_prologue_timer_billboard]

theorem run_frames_cons (M : particle_module)
    (evict : ℚ → particle_system_structure → particle_system_structure)
    (s : scene_structure) (inp : frame_input) (rest : List frame_input) :
    run_frames M evict s (inp :: rest) =
      run_frames M evict (display_frame_with M evict inp s) rest := rfl

/-- One frame keeps "every bubble was spawned no later than the bubble timer", as long as
the bubble timer does not go back and eviction adds no bubble. -/
theorem frame_keeps_bubble_bound (M : particle_module)
    (evict : ℚ → particle_system_structure → particle_system_structure)
    (hevict : ∀ t ps, ∀ p ∈ (evict t ps).bubbles, p ∈ ps.bubbles)
    (inp : frame_input) (s : scene_structure) (b : ℚ) (hb : b ≤ inp.t_bubble)
    (hs : ∀ p ∈ s.particle_system.bubbles, p.t0 ≤ b) :
    ∀ p ∈ (display_frame_with M evict inp s).particle_system.bubbles,
      p.t0 ≤ inp.t_bubble := by
  intro p hp
  rw [display_frame_with_store] at hp
  have hp2 := hevict _ _ p hp
  dsimp only at hp2
  split_ifs at hp2
  · rcases List.mem_append.1 hp2 with h | h
    · exact le_trans (hs p h) hb
    · rw [List.mem_singleton] at h
      rw [h]
      exact le_refl _
  · exact le_trans (hs p hp2) hb

/-- The bound of `frame_keeps_bubble_bound` along a run. -/
theorem run_keeps_bubble_bound (M : particle_module)
    (evict : ℚ → particle_system_structure → particle_system_structure)
    (hevict : ∀ t ps, ∀ p ∈ (evict t ps).bubbles, p ∈ ps.bubbles)
    (inputs : List frame_input) (s : scene_structure)
    (hchain : List.Chain (fun a b => a ≤ b) s.timer_bubble.t
      (inputs.map frame_input.t_bubble))
    (hs : ∀ p ∈ s.particle_system.bubbles, p.t0 ≤ s.timer_bubble.t) :
    ∀ p ∈ (run_frames M evict s inputs).particle_system.bubbles,
      p.t0 ≤ (run_frames M evict s inputs).timer_bubble.t := by
  induction inputs generalizing s with
  | nil => exact hs
  | cons inp rest ih =>
    rw [List.map_cons, List.chain_cons] at hchain
    rw [run_frames_cons]
    apply ih
    · rw [display_frame_with_timer_bubble]; exact hchain.2
    · rw [display_frame_with_timer_bubble]
      exact frame_keeps_bubble_bound M evict hevict inp s _ hchain.1 hs

/-- Appending a newest element to a list sorted by `key` and bounded by `b ≤ t`, then
taking a sublist, gives a list sorted by `key` and bounded by `t`. -/
theorem sorted_bounded_step {α : Type} (key : α → ℚ) (l l2 : List α) (c : α) (e : Bool)
    (b t : ℚ) (hbt : b ≤ t) (hc : key c = t)
    (hl : ∀ p ∈ l, key p ≤ b) (hsorted : l.Pairwise (fun x y => key x ≤ key y))
    (hsub : l2.Sublist (if e then l ++ [c] else l)) :
    (∀ p ∈ l2, key p ≤ t) ∧ l2.Pairwise (fun x y => key x ≤ key y) := by
  have hbig : (∀ p ∈ (if e then l ++ [c] else l), key p ≤ t) ∧
      (if e then l ++ [c] else l).Pairwise (fun x y => key x ≤ key y) := by
    cases e with
    | false =>
      simp only [Bool.false_eq_true, if_false]
      exact ⟨fun p hp => le_trans (hl p hp) hbt, hsorted⟩
    | true =>
      simp only [if_true]
      constructor
      · intro p hp
        rcases List.mem_append.1 hp with h | h
        · exact le_trans (hl p h) hbt
        · rw [List.mem_singleton] at h
          rw [h, hc]
      · rw [List.pairwise_append]
        refine ⟨hsorted, List.pairwise_singleton _ _, ?_⟩
        intro x hx y hy
        rw [List.mem_singleton] at hy
        rw [hy, hc]
        exact le_trans (hl x hx) hbt
  exact ⟨fun p hp => hbig.1 p (hsub.subset hp), hbig.2.sublist hsub⟩

theorem run_keeps_bubbles_sorted (M : particle_module)
    (evict : ℚ → particle_system_structure → particle_system_structure)
    (hevict : ∀ t ps, ((evict t ps).bubbles).Sublist ps.bubbles)
    (inputs : List frame_input) (s : scene_structure)
    (hchain : List.Chain (fun a b => a ≤ b) s.timer_bubble.t
      (inputs.map frame_input.t_bubble))
    (hs : bubbles_sorted s) : bubbles_sorted (run_frames M evict s inputs) := by
  induction inputs generalizing s with
  | nil => exact hs
  | cons inp rest ih =>
    rw [List.map_cons, List.chain_cons] at hchain
    rw [run_frames_cons]
    apply ih
    · rw [display_frame_with_timer_bubble]; exact hchain.2
    · unfold bubbles_sorted
      rw [display_frame_with_timer_bubble, display_frame_with_store]
      exact sorted_bounded_step particle_bubble.t0 s.particle_system.bubbles _
        (particle_bubble.create M inp.t_bubble) inp.event_bubble s.timer_bubble.t
        inp.t_bubble hchain.1 rfl hs.1 hs.2 (hevict _ _)

theorem run_keeps_billboards_sorted (M : particle_module)
    (evict : ℚ → particle_system_structure → particle_system_structure)
    (hevict : ∀ t ps, ((evict t ps).billboards).Sublist ps.billboards)
    (inputs : List frame_input) (s : scene_structure)
    (hchain : List.Chain (fun a b => a ≤ b) s.timer_billboard.t
      (inputs.map frame_input.t_billboard))
    (hs : billboards_sorted s) : billboards_sorted (run_frames M evict s inputs) := by
  induction inputs generalizing s with
  | nil => exact hs
  | cons inp rest ih =>
    rw [List.map_cons, List.chain_cons] at hchain
    rw [run_frames_cons]
    apply ih
    · rw [display_frame_with_timer_billboard]; exact hchain.2
    · unfold billboards_sorted
      rw [display_frame_with_timer_billboard, display_frame_with_store]
      exact sorted_bounded_step particle_billboard.t0 s.particle_system.billboards _
        (particle_billboard.create M inp.t_billboard) inp.event_billboard
        s.timer_billboard.t inp.t_billboard hchain.1 rfl hs.1 hs.2 (hevict _ _)

theorem display_billboard_body_positions (M : particle_module) (s : scene_structure)
    (p : particle_billboard) :
    (display_billboard_body M s p).calls.filterMap billboard_translation =
      s.calls.filterMap billboard_translation ++
        [p.evaluate_position M s.timer_bubble.t] := by
  unfold display_billboard_body issue
  dsimp only
  split <;> simp [List.filterMap_append, billboard_translation]

theorem display_billboard_loop_positions (M : particle_module) (l : List particle_billboard)
    (s : scene_structure) :
    (l.foldl (display_billboard_body M) s).calls.filterMap billboard_translation =
      s.calls.filterMap billboard_translation ++
        l.map (fun p => p.evaluate_position M s.timer_bubble.t) := by
  induction l generalizing s with
  | nil => simp
  | cons a l ih =>
    rw [List.foldl_cons, ih, display_billboard_body_positions, display_billboard_body_timer]
    simp

/-- The billboard quads drawn by `display_billboard` are placed, in store order, at the
positions of the billboards evaluated at `timer_bubble.t`. -/
theorem display_billboard_positions (M : particle_module) (s : scene_structure) :
    (display_billboard M s).calls.filterMap billboard_translation =
      s.calls.filterMap billboard_translation ++
        (billboard_evaluations s).map (fun pe => pe.1.evaluate_position M pe.2) := by
  unfold display_billboard
  dsimp only
  simp only [issue, List.filterMap_append, display_billboard_loop_positions]
  split <;> simp [billboard_translation, billboard_evaluations, List.filterMap_append]

/-- The rendering step evaluates the particles of the state it is given: the
evaluations listed for the state at the end of a frame are those of the state on which
`display_bubble` and `display_billboard` were called in that frame. -/
theorem render_step_evaluations (M : particle_module) (s : scene_structure) :
    bubble_evaluations (render_step M s) = bubble_evaluations s ∧
    billboard_evaluations (render_step M s) = billboard_evaluations s ∧
    billboard_evaluations (display_bubble M s) = billboard_evaluations s := by
  simp only [bubble_evaluations, billboard_evaluations, render_step_store, render_step_timer,
    display_bubble_store, display_bubble_timer, and_self]

/-! ## The claims -/

/-- C1: spawn step of `display_frame`. For each kind, a set event flag appends exactly
one particle, built from that kind's own timer value, at the tail of that kind's
sequence, and a clear flag leaves the sequence as it was; so each sequence grows by at
most one element and stays an extension of the old one, and the result for one kind does
not depend on the timer (value or flag) of the other kind. Inside `display_frame` the
timer values and flags are those of the frame. -/
theorem spawn_step_appends_one (M : particle_module) (s : scene_structure)
    (inp : frame_input) :
    ((spawn_step M s).particle_system.bubbles =
        if s.timer_bubble.event then
          s.particle_system.bubbles ++ [particle_bubble.create M s.timer_bubble.t]
        else s.particle_system.bubbles) ∧
    ((spawn_step M s).particle_system.billboards =
        if s.timer_billboard.event then
          s.particle_system.billboards ++ [particle_billboard.create M s.timer_billboard.t]
        else s.particle_system.billboards) ∧
    (particle_bubble.create M s.timer_bubble.t).t0 = s.timer_bubble.t ∧
    (particle_billboard.create M s.timer_billboard.t).t0 = s.timer_billboard.t ∧
    s.particle_system.bubbles <+: (spawn_step M s).particle_system.bubbles ∧
    s.particle_system.billboards <+: (spawn_step M s).particle_system.billboards ∧
    (spawn_step M s).particle_system.bubbles.length ≤ s.particle_system.bubbles.length + 1 ∧
    (spawn_step M s).particle_system.billboards.length ≤
      s.particle_system.billboards.length + 1 ∧
    (∀ tb : timer_event_periodic,
      (spawn_step M { s with timer_bubble := tb }).particle_system.billboards =
        (spawn_step M s).particle_system.billboards) ∧
    (∀ tb : timer_event_periodic,
      (spawn_step M { s with timer_billboard := tb }).particle_system.bubbles =
        (spawn_step M s).particle_system.bubbles) ∧
    ((spawn_step M (frame_prologue inp s)).particle_system.bubbles =
        if inp.event_bubble then
          s.particle_system.bubbles ++ [particle_bubble.create M inp.t_bubble]
        else s.particle_system.bubbles) ∧
    ((spawn_step M (frame_prologue inp s)).particle_system.billboards =
        if inp.event_billboard then
          s.particle_system.billboards ++ [particle_billboard.create M inp.t_billboard]
        else s.particle_system.billboards) := by
  refine ⟨spawn_step_bubbles M s, spawn_step_billboards M s, rfl, rfl, ?_, ?_, ?_, ?_, ?_, ?_,
    ?_, ?_⟩
  · rw [spawn_step_bubbles]; split_ifs <;> simp
  · rw [spawn_step_billboards]; split_ifs <;> simp
  · rw [spawn_step_bubbles]; split_ifs <;> simp
  · rw [spawn_step_billboards]; split_ifs <;> simp
  · intro tb; rw [spawn_step_billboards, spawn_step_billboards]
  · intro tb; rw [spawn_step_bubbles, spawn_step_bubbles]
  · rw [spawn_step_bubbles, frame_prologue_timer_bubble, frame_prologue_store]
  · rw [spawn_step_billboards, frame_prologue_timer_billboard, frame_prologue_store]

/-- C2: after the eviction step of `display_frame`, called with the frame's time
`timer_bubble.t`, every bubble and every billboard left in the store has
`current_time - t0 ≤ max_lifetime`, for every store and every time (non-negative or
not); the store handed to the rendering step, and the store at the end of the frame, are
this one. -/
theorem eviction_bounds_age (M : particle_module) (inp : frame_input) (s : scene_structure) :
    (∀ (t : ℚ) (ps : particle_system_structure),
      (∀ p ∈ (remove_old_particles M t ps).bubbles, t - p.t0 ≤ M.max_lifetime) ∧
      (∀ p ∈ (remove_old_particles M t ps).billboards, t - p.t0 ≤ M.max_lifetime)) ∧
    (∀ p ∈ (eviction_step (remove_old_particles M)
        (spawn_step M (frame_prologue inp s))).particle_system.bubbles,
      inp.t_bubble - p.t0 ≤ M.max_lifetime) ∧
    (∀ p ∈ (eviction_step (remove_old_particles M)
        (spawn_step M (frame_prologue inp s))).particle_system.billboards,
      inp.t_bubble - p.t0 ≤ M.max_lifetime) ∧
    (∀ p ∈ (display_frame M inp s).particle_system.bubbles,
      (display_frame M inp s).timer_bubble.t - p.t0 ≤ M.max_lifetime) ∧
    (∀ p ∈ (display_frame M inp s).particle_system.billboards,
      (display_frame M inp s).timer_bubble.t - p.t0 ≤ M.max_lifetime) := by
  have ht : (spawn_step M (frame_prologue inp s)).timer_bubble.t = inp.t_bubble := by
    rw [spawn_step_timer_bubble, frame_prologue_timer_bubble]
  have hs : (display_frame M inp s).particle_system =
      remove_old_particles M inp.t_bubble
        (spawn_step M (frame_prologue inp s)).particle_system := by
    unfold display_frame display_frame_with
    rw [render_step_store]
    simp only [eviction_step, ht]
  have hT : (display_frame M inp s).timer_bubble.t = inp.t_bubble := by
    unfold display_frame display_frame_with
    rw [render_step_timer]
    simp only [eviction_step, ht]
  refine ⟨fun t ps => ⟨remove_old_particles_bubbles_age M t ps,
    remove_old_particles_billboards_age M t ps⟩, ?_, ?_, ?_, ?_⟩
  · simp only [eviction_step, ht]
    exact remove_old_particles_bubbles_age M _ _
  · simp only [eviction_step, ht]
    exact remove_old_particles_billboards_age M _ _
  · rw [hs, hT]
    exact remove_old_particles_bubbles_age M _ _
  · rw [hs, hT]
    exact remove_old_particles_billboards_age M _ _

/-- C3: eviction is idempotent. Applying `remove_old_particles` twice with the same time
gives the same two sequences as applying it once, and so does repeating the eviction
step of `display_frame`. -/
theorem eviction_idempotent (M : particle_module) (t : ℚ) (ps : particle_system_structure)
    (s : scene_structure) :
    remove_old_particles M t (remove_old_particles M t ps) = remove_old_particles M t ps ∧
    (eviction_step (remove_old_particles M)
        (eviction_step (remove_old_particles M) s)).particle_system =
      (eviction_step (remove_old_particles M) s).particle_system := by
  have h : ∀ (u : ℚ) (qs : particle_system_structure),
      remove_old_particles M u (remove_old_particles M u qs) = remove_old_particles M u qs := by
    intro u qs
    simp [remove_old_particles, List.filter_filter]
  exact ⟨h t ps, h _ _⟩

/-- C7: the spawn periods. The slider of the bubble period ranges over `[0.05, 2.0]` and
the slider of the billboard period over `[0.01, 0.5]`; both ranges lie inside
`[0.01, 2.0]` and start above zero; the periods set by `initialize` are `0.2` and
`0.05`, each inside the range of its own slider, and they differ. -/
theorem spawn_periods_in_range (s : scene_structure) :
    slider_bubble_spawn_time = (0.05, 2.0) ∧
    slider_smoke_spawn_time = (0.01, 0.5) ∧
    period_valid_range.1 ≤ slider_bubble_spawn_time.1 ∧
    slider_bubble_spawn_time.2 ≤ period_valid_range.2 ∧
    period_valid_range.1 ≤ slider_smoke_spawn_time.1 ∧
    slider_smoke_spawn_time.2 ≤ period_valid_range.2 ∧
    0 < slider_bubble_spawn_time.1 ∧
    0 < slider_smoke_spawn_time.1 ∧
    slider_bubble_spawn_time.1 ≤ slider_bubble_spawn_time.2 ∧
    slider_smoke_spawn_time.1 ≤ slider_smoke_spawn_time.2 ∧
    (initialize_scene s).timer_bubble.event_period = 0.2 ∧
    (initialize_scene s).timer_billboard.event_period = 0.05 ∧
    slider_bubble_spawn_time.1 ≤ (initialize_scene s).timer_bubble.event_period ∧
    (initialize_scene s).timer_bubble.event_period ≤ slider_bubble_spawn_time.2 ∧
    slider_smoke_spawn_time.1 ≤ (initialize_scene s).timer_billboard.event_period ∧
    (initialize_scene s).timer_billboard.event_period ≤ slider_smoke_spawn_time.2 ∧
    (initialize_scene s).timer_bubble.event_period ≠
      (initialize_scene s).timer_billboard.event_period := by
  simp only [slider_bubble_spawn_time, slider_smoke_spawn_time, period_valid_range,
    initialize_scene]
  norm_num

/-- C8: rendering fan-out for bubbles. `display_bubble` adds to the log exactly one
sphere draw call per bubble of the store, in store order; the call for a bubble carries
the translation `evaluate_position(timer_bubble.t)` of that bubble, its radius as
scaling and its colour; with an empty store nothing is added. -/
theorem display_bubble_fan_out (M : particle_module) (s : scene_structure) :
    (display_bubble M s).calls =
      s.calls ++ s.particle_system.bubbles.map (fun p => render_call.draw shape.sphere
        { translation := p.evaluate_position M s.timer_bubble.t,
          scaling := p.radius, color := p.color }) ∧
    (display_bubble M s).calls.length = s.calls.length + s.particle_system.bubbles.length ∧
    (display_bubble M
      { s with particle_system := { s.particle_system with bubbles := [] } }).calls =
        s.calls := by
  have h := display_bubble_calls_aux M s.particle_system.bubbles s
  refine ⟨h, ?_, rfl⟩
  unfold display_bubble; rw [h]; simp

/-- C9: rendering only reads the store. `display_bubble`, `display_billboard` and the
rendering step leave `particle_system` as it was, so the store at the end of
`display_frame` is the one produced by the spawn step followed by the eviction step. -/
theorem rendering_keeps_store (M : particle_module)
    (evict : ℚ → particle_system_structure → particle_system_structure)
    (inp : frame_input) (s : scene_structure) :
    (display_bubble M s).particle_system = s.particle_system ∧
    (display_billboard M s).particle_system = s.particle_system ∧
    (render_step M s).particle_system = s.particle_system ∧
    (display_frame_with M evict inp s).particle_system =
      (eviction_step evict (spawn_step M (frame_prologue inp s))).particle_system ∧
    (display_frame_with M evict inp s).particle_system =
      evict inp.t_bubble (spawn_step M (frame_prologue inp s)).particle_system := by
  have ht : (spawn_step M (frame_prologue inp s)).timer_bubble.t = inp.t_bubble := by
    rw [spawn_step_timer_bubble, frame_prologue_timer_bubble]
  refine ⟨display_bubble_store M s, display_billboard_store M s, render_step_store M s,
    render_step_store M _, ?_⟩
  unfold display_frame_with
  rw [render_step_store]
  simp only [eviction_step, ht]

/-- C10: the store does not depend on the display toggles. Two runs of `display_frame`
from scenes that differ only in `gui` (the five checkboxes), with the same frame input,
finish with the same bubble and billboard sequences. -/
theorem store_independent_of_gui (M : particle_module)
    (evict : ℚ → particle_system_structure → particle_system_structure)
    (inp : frame_input) (s : scene_structure) (g : gui_parameters) :
    (display_frame_with M evict inp { s with gui := g }).particle_system =
      (display_frame_with M evict inp s).particle_system ∧
    (display_frame M inp { s with gui := g }).particle_system =
      (display_frame M inp s).particle_system := by
  have key : ∀ ev : ℚ → particle_system_structure → particle_system_structure,
      (display_frame_with M ev inp { s with gui := g }).particle_system =
        (display_frame_with M ev inp s).particle_system := by
    intro ev
    unfold display_frame_with
    rw [render_step_store, render_step_store]
    simp only [eviction_step, spawn_step_timer_bubble, frame_prologue_timer_bubble]
    rw [spawn_step_store, spawn_step_store]
    simp only [frame_prologue_timer_bubble, frame_prologue_timer_billboard,
      frame_prologue_store]
  exact ⟨key evict, key _⟩

/-- C4: bubble age is never negative when evaluated. Start from an empty store and run
any number of frames in which `timer_bubble.t` never decreases from one frame to the
next, with an eviction that returns only bubbles that were in the store. Then in every
frame, each bubble that `display_bubble` evaluates at `timer_bubble.t` was constructed
with a time no later than that: evaluation time minus `t0` is non-negative. (The state
after frame `k` has the store and the bubble timer that `display_bubble` saw in frame
`k`, see `render_step_evaluations`.) -/
theorem bubble_age_nonneg (M : particle_module)
    (evict : ℚ → particle_system_structure → particle_system_structure)
    (s0 : scene_structure) (inputs : List frame_input)
    (hempty : s0.particle_system = ⟨[], []⟩)
    (hevict : ∀ t ps, ∀ p ∈ (evict t ps).bubbles, p ∈ ps.bubbles)
    (hmono : List.Chain' (fun a b => a ≤ b) (inputs.map frame_input.t_bubble)) :
    ∀ k : ℕ, ∀ pe ∈ bubble_evaluations (run_frames M evict s0 (inputs.take k)),
      0 ≤ pe.2 - pe.1.t0 := by
  intro k pe hpe
  have hk : List.Chain' (fun a b => a ≤ b) ((inputs.take k).map frame_input.t_bubble) := by
    rw [List.map_take]
    exact hmono.take k
  have hb0 : s0.particle_system.bubbles = [] := by rw [hempty]
  have hall : ∀ p ∈ (run_frames M evict s0 (inputs.take k)).particle_system.bubbles,
      p.t0 ≤ (run_frames M evict s0 (inputs.take k)).timer_bubble.t := by
    cases hl : inputs.take k with
    | nil =>
      intro p hp
      change p ∈ s0.particle_system.bubbles at hp
      rw [hb0] at hp
      exact absurd hp (List.not_mem_nil p)
    | cons inp rest =>
      rw [hl] at hk
      rw [run_frames_cons]
      apply run_keeps_bubble_bound M evict hevict
      · rw [display_frame_with_timer_bubble]
        exact hk
      · rw [display_frame_with_timer_bubble]
        apply frame_keeps_bubble_bound M evict hevict inp s0 inp.t_bubble (le_refl _)
        intro p hp
        rw [hb0] at hp
        exact absurd hp (List.not_mem_nil p)
  simp only [bubble_evaluations, List.mem_map] at hpe
  obtain ⟨p, hp, rfl⟩ := hpe
  exact sub_nonneg.2 (hall p hp)

/-- C4, on the three demo frames with the eviction of the particle module: the run
satisfies the hypotheses, and the bubble spawned at time 1 is evaluated at time 4. -/
theorem bubble_age_nonneg_witness :
    demo_scene.particle_system = ⟨[], []⟩ ∧
    List.Chain' (fun a b => a ≤ b) (demo_inputs.map frame_input.t_bubble) ∧
    bubble_evaluations (run_frames demo_module (remove_old_particles demo_module)
      demo_scene (demo_inputs.take 3)) = [(⟨1, vec3.zero, 1, ⟨1, 1, 1⟩⟩, 4)] ∧
    ∀ k : ℕ, ∀ pe ∈ bubble_evaluations (run_frames demo_module
        (remove_old_particles demo_module) demo_scene (demo_inputs.take k)),
      0 ≤ pe.2 - pe.1.t0 := by
  have hmono : List.Chain' (fun a b : ℚ => a ≤ b) (demo_inputs.map frame_input.t_bubble) := by
    simp [demo_inputs]
  refine ⟨rfl, hmono, ?_, bubble_age_nonneg demo_module (remove_old_particles demo_module)
    demo_scene demo_inputs rfl
    (fun t ps p hp => (remove_old_particles_sublist demo_module t ps).1.subset hp) hmono⟩
  simp [bubble_evaluations, run_frames, demo_inputs, display_frame_with_store,
    display_frame_with_timer_bubble, remove_old_particles, demo_module, demo_scene,
    particle_bubble.create, vec3.zero, List.filter]
  norm_num

/-- C5 fails on the code: on the two frames of `skewed_inputs`, whose bubble and
billboard timers both never decrease, the billboard constructed with
`timer_billboard.t = 2` is still in the store in the second frame and
`display_billboard` evaluates it at `timer_bubble.t = 3/2`, before its spawn time; on
that state `display_billboard` draws the quad at the position of age `-1/2`. -/
theorem billboard_evaluated_before_spawn :
    demo_scene.particle_system = ⟨[], []⟩ ∧
    List.Chain' (fun a b => a ≤ b) (skewed_inputs.map frame_input.t_bubble) ∧
    List.Chain' (fun a b => a ≤ b) (skewed_inputs.map frame_input.t_billboard) ∧
    billboard_evaluations (run_frames demo_module (remove_old_particles demo_module)
      demo_scene skewed_inputs) = [(⟨2, vec3.zero⟩, 3/2)] ∧
    (∃ pe ∈ billboard_evaluations (run_frames demo_module (remove_old_particles demo_module)
      demo_scene skewed_inputs), pe.2 - pe.1.t0 < 0) ∧
    (display_billboard demo_module (run_frames demo_module (remove_old_particles demo_module)
        demo_scene skewed_inputs)).calls.filterMap billboard_translation =
      (run_frames demo_module (remove_old_particles demo_module)
        demo_scene skewed_inputs).calls.filterMap billboard_translation ++
        [⟨0, -1/2, 0⟩] := by
  have hev : billboard_evaluations (run_frames demo_module (remove_old_particles demo_module)
      demo_scene skewed_inputs) = [(⟨2, vec3.zero⟩, 3/2)] := by
    simp [billboard_evaluations, run_frames, skewed_inputs, display_frame_with_store,
      display_frame_with_timer_bubble, remove_old_particles,
      demo_module, demo_scene, particle_billboard.create, vec3.zero, List.filter]
    norm_num
  refine ⟨rfl, ?_, ?_, hev, ?_, ?_⟩
  · simp [skewed_inputs]; norm_num
  · simp [skewed_inputs]; norm_num
  · rw [hev]
    exact ⟨(⟨2, vec3.zero⟩, 3/2), List.mem_singleton.2 rfl, by norm_num⟩
  · rw [display_billboard_positions, hev]
    simp [particle_billboard.evaluate_position, demo_module, vec3.zero]
    norm_num

/-- C6: each sequence is kept oldest first. Start from an empty store and run any number
of frames with an eviction that returns, for each sequence, a sublist of it (survivors
in their old order). After every frame the bubble sequence is sorted by non-decreasing
spawn time if `timer_bubble.t` never decreases from frame to frame, and the billboard
sequence is if `timer_billboard.t` never decreases. -/
theorem store_kept_oldest_first (M : particle_module)
    (evict : ℚ → particle_system_structure → particle_system_structure)
    (s0 : scene_structure) (inputs : List frame_input)
    (hempty : s0.particle_system = ⟨[], []⟩)
    (hevict : ∀ t ps, ((evict t ps).bubbles).Sublist ps.bubbles ∧
      ((evict t ps).billboards).Sublist ps.billboards) :
    (List.Chain' (fun a b => a ≤ b) (inputs.map frame_input.t_bubble) →
      ∀ k : ℕ, (run_frames M evict s0 (inputs.take k)).particle_system.bubbles.Pairwise
        (fun x y => x.t0 ≤ y.t0)) ∧
    (List.Chain' (fun a b => a ≤ b) (inputs.map frame_input.t_billboard) →
      ∀ k : ℕ, (run_frames M evict s0 (inputs.take k)).particle_system.billboards.Pairwise
        (fun x y => x.t0 ≤ y.t0)) := by
  have hb0 : s0.particle_system.bubbles = [] := by rw [hempty]
  have hq0 : s0.particle_system.billboards = [] := by rw [hempty]
  constructor
  · intro hmono k
    have hk : List.Chain' (fun a b => a ≤ b)
        ((inputs.take k).map frame_input.t_bubble) := by
      rw [List.map_take]
      exact hmono.take k
    cases hl : inputs.take k with
    | nil =>
      change s0.particle_system.bubbles.Pairwise _
      rw [hb0]
      exact List.Pairwise.nil
    | cons inp rest =>
      rw [hl] at hk
      rw [run_frames_cons]
      refine (run_keeps_bubbles_sorted M evict (fun t ps => (hevict t ps).1) rest _ ?_ ?_).2
      · rw [display_frame_with_timer_bubble]
        exact hk
      · unfold bubbles_sorted
        rw [display_frame_with_timer_bubble, display_frame_with_store]
        refine sorted_bounded_step particle_bubble.t0 s0.particle_system.bubbles _
          (particle_bubble.create M inp.t_bubble) inp.event_bubble inp.t_bubble
          inp.t_bubble (le_refl _) rfl ?_ ?_ ((hevict _ _).1)
        · rw [hb0]; intro p hp; exact absurd hp (List.not_mem_nil p)
        · rw [hb0]; exact List.Pairwise.nil
  · intro hmono k
    have hk : List.Chain' (fun a b => a ≤ b)
        ((inputs.take k).map frame_input.t_billboard) := by
      rw [List.map_take]
      exact hmono.take k
    cases hl : inputs.take k with
    | nil =>
      change s0.particle_system.billboards.Pairwise _
      rw [hq0]
      exact List.Pairwise.nil
    | cons inp rest =>
      rw [hl] at hk
      rw [run_frames_cons]
      refine (run_keeps_billboards_sorted M evict (fun t ps => (hevict t ps).2) rest _
        ?_ ?_).2
      · rw [display_frame_with_timer_billboard]
        exact hk
      · unfold billboards_sorted
        rw [display_frame_with_timer_billboard, display_frame_with_store]
        refine sorted_bounded_step particle_billboard.t0 s0.particle_system.billboards _
          (particle_billboard.create M inp.t_billboard) inp.event_billboard inp.t_billboard
          inp.t_billboard (le_refl _) rfl ?_ ?_ ((hevict _ _).2)
        · rw [hq0]; intro p hp; exact absurd hp (List.not_mem_nil p)
        · rw [hq0]; exact List.Pairwise.nil

/-- C6, on the first two demo frames with the eviction of the particle module: the
hypotheses hold, both timers never decrease, the store then holds two particles of each
kind, spawned at times 0 and 1 in this order, and both sequences are sorted after every
frame. -/
theorem store_kept_oldest_first_witness :
    demo_scene.particle_system = ⟨[], []⟩ ∧
    List.Chain' (fun a b => a ≤ b) (demo_inputs.map frame_input.t_bubble) ∧
    List.Chain' (fun a b => a ≤ b) (demo_inputs.map frame_input.t_billboard) ∧
    (run_frames demo_module (remove_old_particles demo_module) demo_scene
      (demo_inputs.take 2)).particle_system =
        ⟨[⟨0, vec3.zero, 1, ⟨1, 1, 1⟩⟩, ⟨1, vec3.zero, 1, ⟨1, 1, 1⟩⟩],
         [⟨0, vec3.zero⟩, ⟨1, vec3.zero⟩]⟩ ∧
    (∀ k : ℕ, (run_frames demo_module (remove_old_particles demo_module) demo_scene
        (demo_inputs.take k)).particle_system.bubbles.Pairwise (fun x y => x.t0 ≤ y.t0)) ∧
    (∀ k : ℕ, (run_frames demo_module (remove_old_particles demo_module) demo_scene
        (demo_inputs.take k)).particle_system.billboards.Pairwise
          (fun x y => x.t0 ≤ y.t0)) := by
  have hb : List.Chain' (fun a b : ℚ => a ≤ b) (demo_inputs.map frame_input.t_bubble) := by
    simp [demo_inputs]
  have hq : List.Chain' (fun a b : ℚ => a ≤ b)
      (demo_inputs.map frame_input.t_billboard) := by
    simp [demo_inputs]
  have h := store_kept_oldest_first demo_module (remove_old_particles demo_module)
    demo_scene demo_inputs rfl (remove_old_particles_sublist demo_module)
  refine ⟨rfl, hb, hq, ?_, h.1 hb, h.2 hq⟩
  simp [run_frames, demo_inputs, display_frame_with_store, remove_old_particles,
    demo_module, demo_scene, particle_bubble.create, particle_billboard.create,
    vec3.zero, List.filter]
  norm_num

end Scene
